import Mathlib

/-!
Verification of the SavolBot asynchronous answer pipeline (`src/main.py`).

This file gives a shallow embedding, in Lean 4, of the pure logic of the
pipeline: the backoff retrier `_retry`, the friendly-error formatter
`_friendly_error_text`, the rate-limited completion client `ask_gpt`, the
legal (citation-required) composer `answer_legal` with its lex.uz filter
`_format_lex_results`, the freshness heuristic `_looks_dynamic` /
`_contains_fresh_year`, the conversation-history bookkeeping
`append_history`, the queue-worker step `_process_task` / `workerStep`, and
the queue-wait estimator `_eta_seconds`.  Outbound HTTP calls are modelled
by passing their outcomes (`Except PyErr String`) as explicit inputs;
mutable module-level state is modelled by explicit state passing.

Machine-level caveats of the model: Python strings are modelled as Lean
`String` (lists of Unicode scalar values); `str.lower` is modelled for the
ASCII and Cyrillic ranges, which cover every keyword and pattern the source
matches against; regex word characters are modelled as ASCII alphanumerics,
underscore, and the Cyrillic block.
-/

/-- The exception classes that can escape an outbound HTTP call in
`src/main.py`, at the granularity `_retry` and `_friendly_error_text`
distinguish them: `httpStatus code` is `httpx.HTTPStatusError` with the given
response status; `connectError` is an `httpx.HTTPError` transport failure
that is not a timeout (for example a connection failure); `readTimeout` is an
`httpx` timeout (also an `HTTPError`); `asyncioTimeout` is
`asyncio.TimeoutError`; `other` is any exception matching none of those
(for example `ValueError`). -/
inductive PyErr where
  | httpStatus (code : Nat)
  | connectError
  | readTimeout
  | asyncioTimeout
  | other
deriving DecidableEq, Repr

/-- Whether `_retry` (src/main.py:536-550) treats an exception as retryable:
`HTTPStatusError` with status in `(429, 500, 502, 503, 504)` is recorded and
retried; any other `HTTPStatusError` is re-raised from the first `except`
arm; every other `HTTPError` and `asyncio.TimeoutError` is recorded and
retried by the second `except` arm; anything else is not caught at all. -/
def pyRetryable : PyErr → Bool
  | .httpStatus code =>
      code = 429 || code = 500 || code = 502 || code = 503 || code = 504
  | .connectError => true
  | .readTimeout => true
  | .asyncioTimeout => true
  | .other => false

/-- Result of a `_retry` call: a value returned by the operation, an
exception propagated to the caller, or Python's implicit `None` return
(reached when the loop body never stores an exception, in particular when
`attempts <= 0`). -/
inductive RetryResult (α : Type) where
  | ok (a : α)
  | raised (e : PyErr)
  | retNone
deriving DecidableEq, Repr

/-- One pass of the `for i in range(attempts)` loop of `_retry`
(src/main.py:536-550).  `op i` is the outcome of the `i`-th invocation of
`coro_factory` (a fresh call each attempt); `remaining` is the number of
loop iterations left; `last` is `last_exc`.  Returns the result together
with the number of operation invocations and the number of backoff sleeps
(`await asyncio.sleep(...)` runs at the end of every iteration that did not
return or re-raise, including the final one). -/
def retryGo {α : Type} (op : Nat → Except PyErr α) :
    Nat → Nat → Option PyErr → RetryResult α × Nat × Nat
  | _, 0, last =>
      (match last with
       | some e => .raised e
       | none => .retNone, 0, 0)
  | i, remaining + 1, _ =>
      match op i with
      | .ok a => (.ok a, 1, 0)
      | .error e =>
          if pyRetryable e then
            match retryGo op (i + 1) remaining (some e) with
            | (res, calls, sleeps) => (res, calls + 1, sleeps + 1)
          else
            (.raised e, 1, 0)

/-- `_retry(coro_factory, attempts, base_delay)` (src/main.py:536-550),
with `attempts` an integer as in Python (`range(attempts)` is empty for
non-positive `attempts`).  Returns the result, the number of operation
invocations, and the number of backoff sleeps. -/
def pyRetry {α : Type} (op : Nat → Except PyErr α) (attempts : Int) :
    RetryResult α × Nat × Nat :=
  retryGo op 0 attempts.toNat none

/-- Helper: if every invocation fails with a retryable error, the loop runs
all its iterations, sleeps after each, and ends holding the error of the
last iteration. -/
theorem retryGo_all_retryable {α : Type} (op : Nat → Except PyErr α)
    (errs : Nat → PyErr) (hop : ∀ i, op i = .error (errs i))
    (hre : ∀ i, pyRetryable (errs i) = true) :
    ∀ r i last, retryGo op i (r + 1) last =
      (.raised (errs (i + r)), r + 1, r + 1) := by
  intro r
  induction r with
  | zero =>
      intro i last
      simp [retryGo, hop i, hre i]
  | succ r ih =>
      intro i last
      have h := ih (i + 1) (some (errs i))
      rw [retryGo, hop i]
      simp only [hre i, if_true, h]
      have heq : i + 1 + r = i + (r + 1) := by omega
      simp [heq]

/-- Helper: with `attempts >= 1` and every invocation failing with a
retryable error, `_retry` invokes the operation once per attempt, sleeps
after each failure, and raises the error of the last attempt. -/
theorem retry_exhausts {α : Type} (op : Nat → Except PyErr α)
    (errs : Nat → PyErr) (attempts : Int) (h1 : 1 ≤ attempts)
    (hop : ∀ i, op i = .error (errs i))
    (hre : ∀ i, pyRetryable (errs i) = true) :
    pyRetry op attempts =
      (.raised (errs (attempts.toNat - 1)), attempts.toNat, attempts.toNat) := by
  obtain ⟨m, hm⟩ : ∃ m, attempts.toNat = m + 1 :=
    ⟨attempts.toNat - 1, by omega⟩
  unfold pyRetry
  rw [hm, retryGo_all_retryable op errs hop hre m 0 none]
  simp [hm]

/-- Helper: a non-retryable error on the first invocation propagates at
once: one invocation, no backoff sleep. -/
theorem retry_first_raise {α : Type} (op : Nat → Except PyErr α) (e : PyErr)
    (attempts : Int) (h1 : 1 ≤ attempts) (hop : op 0 = .error e)
    (hre : pyRetryable e = false) :
    pyRetry op attempts = (.raised e, 1, 0) := by
  obtain ⟨m, hm⟩ : ∃ m, attempts.toNat = m + 1 :=
    ⟨attempts.toNat - 1, by omega⟩
  unfold pyRetry
  rw [hm, retryGo, hop]
  simp [hre]

/-- C3: for a positive attempt budget, an operation that raises a retryable
error on every invocation is invoked exactly `attempts` times and `_retry`
then raises the error of the last attempt; an operation that raises a
non-retryable error on its first invocation is invoked exactly once and the
error propagates. -/
theorem retry_bounds (attempts : Int) (h1 : 1 ≤ attempts) :
    (∀ {α : Type} (op : Nat → Except PyErr α) (errs : Nat → PyErr),
        (∀ i, op i = .error (errs i)) → (∀ i, pyRetryable (errs i) = true) →
        pyRetry op attempts =
          (.raised (errs (attempts.toNat - 1)), attempts.toNat, attempts.toNat))
    ∧ (∀ {α : Type} (op : Nat → Except PyErr α) (e : PyErr),
        op 0 = .error e → pyRetryable e = false →
        pyRetry op attempts = (.raised e, 1, 0)) :=
  ⟨fun op errs hop hre => retry_exhausts op errs attempts h1 hop hre,
   fun op e hop hre => retry_first_raise op e attempts h1 hop hre⟩

/-- Witness for C3 at `attempts = 3`: an always-`ReadTimeout` operation is
called three times and the timeout is finally raised (after three backoff
sleeps); an operation failing with HTTP 404 on the first call is called
once and the 404 propagates without a sleep. -/
theorem retry_bounds_witness :
    pyRetry (fun _ => (Except.error PyErr.readTimeout : Except PyErr Unit)) 3 =
      (.raised PyErr.readTimeout, 3, 3)
    ∧ pyRetry (fun _ => (Except.error (PyErr.httpStatus 404) : Except PyErr Unit)) 3 =
      (.raised (PyErr.httpStatus 404), 1, 0) :=
  ⟨(retry_bounds 3 (by decide)).1 _ (fun _ => PyErr.readTimeout)
      (fun _ => rfl) (fun _ => rfl),
   (retry_bounds 3 (by decide)).2 _ (PyErr.httpStatus 404) rfl rfl⟩

/-- The failure classification claim C4 ascribes to `_retry`: retryable
exactly when the failure is a rate-limit status (429), a server-error
status (5xx), or an I/O timeout. -/
def claimRetryable : PyErr → Bool
  | .httpStatus code => code = 429 || (500 ≤ code && code ≤ 599)
  | .connectError => false
  | .readTimeout => true
  | .asyncioTimeout => true
  | .other => false

/-- Counterexample to C4: HTTP 501 is a server-error status, yet `_retry`
re-raises it immediately (its retryable tuple is `(429, 500, 502, 503,
504)`); conversely a non-timeout transport failure such as a connection
error is none of rate-limit / server-error / I/O timeout, yet `_retry`
retries it (the `except (HTTPError, asyncio.TimeoutError)` arm catches every
`httpx` transport error). -/
theorem retry_classification_cex :
    claimRetryable (PyErr.httpStatus 501) = true
    ∧ pyRetryable (PyErr.httpStatus 501) = false
    ∧ claimRetryable PyErr.connectError = false
    ∧ pyRetryable PyErr.connectError = true := by
  decide

/-- C4 as amended: `_retry` classifies a failure as retryable exactly when
it is HTTP status 429, 500, 502, 503 or 504, or any `httpx` transport error
(timeouts and connection failures alike), or an `asyncio` timeout; every
other failure — including HTTP 501 and 505-599, client errors, and
non-HTTP exceptions — propagates on its first occurrence without consuming
a further attempt and without any backoff sleep. -/
theorem retry_classification_amended :
    (∀ e, pyRetryable e = true ↔
        (e = PyErr.httpStatus 429 ∨ e = PyErr.httpStatus 500 ∨
         e = PyErr.httpStatus 502 ∨ e = PyErr.httpStatus 503 ∨
         e = PyErr.httpStatus 504 ∨ e = PyErr.connectError ∨
         e = PyErr.readTimeout ∨ e = PyErr.asyncioTimeout))
    ∧ (∀ (attempts : Int), 1 ≤ attempts →
       ∀ {α : Type} (op : Nat → Except PyErr α) (e : PyErr),
         op 0 = .error e → pyRetryable e = false →
         pyRetry op attempts = (.raised e, 1, 0)) := by
  constructor
  · intro e
    cases e with
    | httpStatus code =>
        simp only [pyRetryable, Bool.or_eq_true, decide_eq_true_eq,
          PyErr.httpStatus.injEq]
        constructor
        · rintro ((((h | h) | h) | h) | h) <;> simp [h]
        · rintro (h | h | h | h | h | h | h | h) <;> simp_all
    | connectError => simp [pyRetryable]
    | readTimeout => simp [pyRetryable]
    | asyncioTimeout => simp [pyRetryable]
    | other => simp [pyRetryable]
  · intro attempts h1 α op e hop hre
    exact retry_first_raise op e attempts h1 hop hre

/-- Witness for the amended C4: HTTP 502 is in the retryable set, and an
operation that fails with HTTP 404 on its first of two attempts raises at
once with one invocation and zero sleeps. -/
theorem retry_classification_amended_witness :
    (pyRetryable (PyErr.httpStatus 502) = true ↔
        (PyErr.httpStatus 502 = PyErr.httpStatus 429 ∨
         PyErr.httpStatus 502 = PyErr.httpStatus 500 ∨
         PyErr.httpStatus 502 = PyErr.httpStatus 502 ∨
         PyErr.httpStatus 502 = PyErr.httpStatus 503 ∨
         PyErr.httpStatus 502 = PyErr.httpStatus 504 ∨
         PyErr.httpStatus 502 = PyErr.connectError ∨
         PyErr.httpStatus 502 = PyErr.readTimeout ∨
         PyErr.httpStatus 502 = PyErr.asyncioTimeout))
    ∧ pyRetry (fun _ => (Except.error (PyErr.httpStatus 404) : Except PyErr Unit)) 2 =
        (.raised (PyErr.httpStatus 404), 1, 0) :=
  ⟨retry_classification_amended.1 (PyErr.httpStatus 502),
   retry_classification_amended.2 2 (by decide) _ (PyErr.httpStatus 404) rfl rfl⟩

/-- C9: with a non-positive attempt budget the `for i in range(attempts)`
loop of `_retry` never runs, `last_exc` stays `None`, and the function
falls through to an implicit `return None`: zero invocations, zero sleeps,
no exception. -/
theorem retry_nonpositive_attempts {α : Type} (op : Nat → Except PyErr α)
    (attempts : Int) (h : attempts ≤ 0) :
    pyRetry op attempts = (.retNone, 0, 0) := by
  unfold pyRetry
  rw [Int.toNat_of_nonpos h]
  rfl

/-- Witness for C9 at `attempts = 0`: an always-failing operation is never
invoked and `_retry` returns `None`. -/
theorem retry_nonpositive_attempts_witness :
    pyRetry (fun _ => (Except.error PyErr.readTimeout : Except PyErr Unit)) 0 =
      (.retNone, 0, 0) :=
  retry_nonpositive_attempts _ 0 (by decide)

/-- Python `str.lower` restricted to the character ranges the source
matches against: ASCII letters and the Cyrillic block (А-Я and Ё). -/
def pyLowerChar (c : Char) : Char :=
  if 'A' ≤ c && c ≤ 'Z' then Char.ofNat (c.toNat + 32)
  else if 0x410 ≤ c.toNat && c.toNat ≤ 0x42F then Char.ofNat (c.toNat + 32)
  else if c.toNat = 0x401 then Char.ofNat 0x451
  else c

/-- `str.lower` over a whole string (model, see `pyLowerChar`). -/
def pyLower (s : String) : String :=
  ⟨s.data.map pyLowerChar⟩

/-- Does the character list start with the given pattern. -/
def startsWithChars : List Char → List Char → Bool
  | _, [] => true
  | [], _ :: _ => false
  | a :: as, b :: bs => a = b && startsWithChars as bs

/-- Python's `pat in s` substring test, on character lists. -/
def containsChars : List Char → List Char → Bool
  | [], pat => pat.isEmpty
  | c :: cs, pat => startsWithChars (c :: cs) pat || containsChars cs pat

/-- Python's `pat in s` substring test on strings. -/
def strContains (s pat : String) : Bool :=
  containsChars s.data pat.data

/-- Regex word character (`\w`), modelled as ASCII alphanumerics,
underscore, and the Cyrillic block. -/
def isWordChar (c : Char) : Bool :=
  c.isAlphanum || c = '_' || (0x400 ≤ c.toNat && c.toNat ≤ 0x4FF)

/-- Is there a `\b` word boundary immediately before position `i`. -/
def boundaryBefore (l : List Char) (i : Nat) : Bool :=
  match i with
  | 0 => true
  | j + 1 =>
      match l.get? j with
      | some c => !isWordChar c
      | none => true

/-- Is there a `\b` word boundary immediately before position `i`
(used for the position just after a match). -/
def boundaryAfter (l : List Char) (i : Nat) : Bool :=
  match l.get? i with
  | some c => !isWordChar c
  | none => true

/-- A match of the source's year pattern `\b(20\d{2})\b`
(src/main.py:620) starting at position `i`: characters `2`, `0`, two
digits, delimited by word boundaries.  Returns the year value. -/
def yearAt (l : List Char) (i : Nat) : Option Nat :=
  match l.get? i with
  | none => none
  | some c0 =>
      match l.get? (i + 1), l.get? (i + 2), l.get? (i + 3) with
      | some c1, some c2, some c3 =>
          if c0 = '2' && c1 = '0' && c2.isDigit && c3.isDigit
              && boundaryBefore l i && boundaryAfter l (i + 4) then
            some (2000 + 10 * (c2.toNat - 48) + (c3.toNat - 48))
          else none
      | _, _, _ => none

/-- All matches of `\b(20\d{2})\b` in the list, as year values.  Because
the pattern is boundary-delimited, matches cannot overlap, so scanning
every start position coincides with `re.findall`. -/
def yearsIn (l : List Char) : List Nat :=
  (List.range l.length).filterMap (yearAt l)

/-- `_contains_fresh_year(s, window=3)` (src/main.py:615-621): true when
some year `y` matched by `\b(20\d{2})\b` satisfies `y_now - y <= 3` —
signed comparison, so every future `20xx` year qualifies.  `yNow` models
`datetime.utcnow().year`. -/
def _contains_fresh_year (yNow : Int) (s : String) : Bool :=
  (yearsIn s.data).any (fun y => yNow - (y : Int) ≤ 3)

/-- `_DYNAMIC_KEYWORDS` (src/main.py:611-614). -/
def dynamicKeywords : List String :=
  ["курс", "ставк", "инфляц", "зарплат", "налог", "цена", "тариф",
   "пособи", "пенси", "кредит", "новост", "прогноз", "изменени",
   "обновлени", "statistika", "narx", "stavka", "yangilik", "price", "rate"]

/-- `_looks_dynamic(*texts)` (src/main.py:623-625): lowercase the truthy
texts, join them with single spaces, and test keyword containment or a
fresh year. -/
def _looks_dynamic (yNow : Int) (texts : List String) : Bool :=
  let low := String.intercalate " " ((texts.filter (fun t => t ≠ "")).map pyLower)
  dynamicKeywords.any (fun k => strContains low k) || _contains_fresh_year yNow low

/-- A 4-digit number token at position `i`, delimited by word boundaries
(used to state claim C8's reading of "contains a 4-digit year"). -/
def fourDigitAt (l : List Char) (i : Nat) : Option Nat :=
  match l.get? i with
  | none => none
  | some c0 =>
      match l.get? (i + 1), l.get? (i + 2), l.get? (i + 3) with
      | some c1, some c2, some c3 =>
          if c0.isDigit && c1.isDigit && c2.isDigit && c3.isDigit
              && boundaryBefore l i && boundaryAfter l (i + 4) then
            some (1000 * (c0.toNat - 48) + 100 * (c1.toNat - 48) +
              10 * (c2.toNat - 48) + (c3.toNat - 48))
          else none
      | _, _, _ => none

/-- Claim C8's predicate, following its words: the lowercased joined text
contains a curated keyword, or contains a 4-digit year `y` with
`|current_year - y| <= 3`. -/
def claimLooksDynamic (yNow : Int) (texts : List String) : Bool :=
  let low := String.intercalate " " ((texts.filter (fun t => t ≠ "")).map pyLower)
  dynamicKeywords.any (fun k => strContains low k) ||
    ((List.range low.data.length).filterMap (fourDigitAt low.data)).any
      (fun y => (yNow - (y : Int)).natAbs ≤ 3)

/-- Counterexample to C8: with the current year 2025, the text `"2099"`
contains no dynamic keyword and its only 4-digit year is 74 years away,
yet `_looks_dynamic` returns true, because `_contains_fresh_year` tests
the signed difference `y_now - y <= 3` (no absolute value), which every
future `20xx` year satisfies. -/
theorem looks_dynamic_cex :
    _looks_dynamic 2025 ["2099"] = true
    ∧ claimLooksDynamic 2025 ["2099"] = false := by
  decide

/-- Helper: a year match at position `i` needs a character at `i`. -/
theorem yearAt_lt_length {l : List Char} {i y : Nat}
    (h : yearAt l i = some y) : i < l.length := by
  unfold yearAt at h
  by_contra hlen
  push_neg at hlen
  rw [List.get?_eq_none.mpr (by omega)] at h
  simp at h

/-- C8 as amended: `_looks_dynamic` returns true iff the lowercased
space-joined texts contain a curated dynamic-fact keyword, or contain a
boundary-delimited year `20xx` with `current_year - y <= 3` — a signed
window, so all future `20xx` years count as fresh (the claim's
`|current_year - y| <= 3` fails for them). -/
theorem looks_dynamic_amended (yNow : Int) (texts : List String) :
    _looks_dynamic yNow texts = true ↔
      (let low := String.intercalate " " ((texts.filter (fun t => t ≠ "")).map pyLower)
       (∃ k ∈ dynamicKeywords, strContains low k = true) ∨
         (∃ y, (∃ i, yearAt low.data i = some y) ∧ yNow - (y : Int) ≤ 3)) := by
  unfold _looks_dynamic _contains_fresh_year yearsIn
  simp only [Bool.or_eq_true, List.any_eq_true, List.mem_filterMap,
    List.mem_range, decide_eq_true_eq]
  constructor
  · rintro (⟨k, hk, hc⟩ | ⟨y, ⟨i, _, hy⟩, hw⟩)
    · exact Or.inl ⟨k, hk, hc⟩
    · exact Or.inr ⟨y, ⟨i, hy⟩, hw⟩
  · rintro (⟨k, hk, hc⟩ | ⟨y, ⟨i, hy⟩, hw⟩)
    · exact Or.inl ⟨k, hk, hc⟩
    · exact Or.inr ⟨y, ⟨i, yearAt_lt_length hy, hy⟩, hw⟩

/-- One entry of the per-user conversation history `HISTORY`
(src/main.py:193): role, content, and an ISO timestamp. -/
structure HistEntry where
  role : String
  content : String
  ts : String
deriving DecidableEq, Repr

/-- `append_history(user_id, role, content)` (src/main.py:218-223),
restricted to its effect on the one user's list: append the new entry,
then `del lst[: len(lst) - 20]` whenever the length exceeds 20. -/
def append_history (hist : List HistEntry) (e : HistEntry) : List HistEntry :=
  let lst := hist ++ [e]
  if 20 < lst.length then lst.drop (lst.length - 20) else lst

/-- C10: after every `append_history` call the stored list has
`min (previous length + 1) 20` entries — never more than 20 — and equals
the suffix of most-recent entries of the appended list, in order. -/
theorem append_history_cap (hist : List HistEntry) (e : HistEntry) :
    (append_history hist e).length = min (hist.length + 1) 20
    ∧ (append_history hist e).length ≤ 20
    ∧ append_history hist e =
        (hist ++ [e]).drop ((hist ++ [e]).length - 20) := by
  have hlen : (hist ++ [e]).length = hist.length + 1 := by simp
  unfold append_history
  by_cases h : 20 < (hist ++ [e]).length
  · rw [if_pos h]
    refine ⟨?_, ?_, rfl⟩
    · rw [List.length_drop, hlen]
      rw [hlen] at h
      omega
    · rw [List.length_drop, hlen]
      rw [hlen] at h
      omega
  · rw [if_neg h]
    have h0 : (hist ++ [e]).length - 20 = 0 := by omega
    refine ⟨?_, ?_, ?_⟩
    · rw [hlen]
      rw [hlen] at h
      omega
    · rw [hlen]
      rw [hlen] at h
      omega
    · rw [h0, List.drop_zero]

/-- Python `str.split()` whitespace class (model): space, tab, newline,
carriage return, vertical tab, form feed. -/
def isWsChar (c : Char) : Bool :=
  c = ' ' || c = '\t' || c = '\n' || c = '\r' || c.toNat = 11 || c.toNat = 12

/-- Split a character list at whitespace characters; `acc` holds the
current chunk reversed. -/
def splitWsGo : List Char → List Char → List (List Char)
  | [], acc => [acc.reverse]
  | c :: cs, acc =>
      if isWsChar c then acc.reverse :: splitWsGo cs []
      else splitWsGo cs (c :: acc)

/-- Modelled from the spec: the Answer Cache's key normalization ("Key
normalization: lowercase, collapse internal whitespace runs to a single
space, trim").  No Answer Cache exists in `src/`; this definition follows
the spec's words: lowercase, then split on whitespace, drop empty chunks,
and rejoin with single spaces (which both collapses internal runs and
trims the ends). -/
def normalize_question (q : String) : String :=
  ⟨List.intercalate [' ']
    ((splitWsGo (q.data.map pyLowerChar) []).filter (fun w => w ≠ []))⟩

/-- Modelled from the spec: one Answer Cache entry, "{answer text,
creation timestamp}". -/
structure CacheEntry where
  answer : String
  ts : Nat
deriving DecidableEq, Repr

/-- First binding of a key in the cache association list. -/
def cacheFind (k : String) : List (String × CacheEntry) → Option CacheEntry
  | [] => none
  | (k', e) :: rest => if k' = k then some e else cacheFind k rest

/-- Smallest creation timestamp in the cache (0 when empty). -/
def minTs : List (String × CacheEntry) → Nat
  | [] => 0
  | [(_, e)] => e.ts
  | (_, e) :: rest => min e.ts (minTs rest)

/-- Remove the first entry satisfying the test. -/
def removeFirstBy (p : String × CacheEntry → Bool) :
    List (String × CacheEntry) → List (String × CacheEntry)
  | [] => []
  | x :: xs => if p x then xs else x :: removeFirstBy p xs

/-- Modelled from the spec: the Answer Cache capacity, "default 500
entries". -/
def CACHE_MAX_ENTRIES : Nat := 500

/-- Modelled from the spec: `set(question, text)` of the Answer Cache —
"`set` first evicts the globally-oldest entry if the cache is at capacity
(default 500 entries), then inserts/overwrites the key with a fresh
timestamp".  The cache is an association list keyed by the normalized
question, newest binding first. -/
def cache_set (c : List (String × CacheEntry)) (now : Nat) (q a : String) :
    List (String × CacheEntry) :=
  let k := normalize_question q
  let c1 :=
    if CACHE_MAX_ENTRIES ≤ c.length then
      removeFirstBy (fun p => p.2.ts = minTs c) c
    else c
  (k, ⟨a, now⟩) :: c1.filter (fun p => p.1 ≠ k)

/-- Modelled from the spec: `get(question)` of the Answer Cache — "`get`
returns nothing (cache miss) if the entry's age exceeds the TTL (default
24h); a miss caused by expiry also deletes the stale entry as a side
effect".  Returns the answer (if any) and the possibly-pruned cache. -/
def cache_get (c : List (String × CacheEntry)) (now ttl : Nat) (q : String) :
    Option String × List (String × CacheEntry) :=
  let k := normalize_question q
  match cacheFind k c with
  | none => (none, c)
  | some e =>
      if ttl < now - e.ts then (none, c.filter (fun p => p.1 ≠ k))
      else (some e.answer, c)

/-- C1 (spec-modelled): `set(Q, A)` followed immediately by `get(Q')` with
no clock advance returns A, for any question `Q'` with the same normalized
key — in particular `Q' = Q`. -/
theorem cache_round_trip (c : List (String × CacheEntry)) (now ttl : Nat)
    (q q2 a : String) (hnorm : normalize_question q2 = normalize_question q) :
    (cache_get (cache_set c now q a) now ttl q2).1 = some a := by
  unfold cache_get cache_set
  simp only [hnorm]
  rw [cacheFind]
  simp

/-- Witness for C1: storing "42" under the question "Foo  BAR " and
reading back under " foo   bar" (same key after lowercasing, whitespace
collapsing, and trimming) returns "42". -/
theorem cache_round_trip_witness :
    normalize_question " foo   bar" = normalize_question "Foo  BAR "
    ∧ (cache_get (cache_set [] 0 "Foo  BAR " "42") 0 86400 " foo   bar").1 =
        some "42" :=
  ⟨by decide,
   cache_round_trip [] 0 86400 "Foo  BAR " " foo   bar" "42" (by decide)⟩

/-- The Russian message table of `_friendly_error_text`
(src/main.py:553-560), keyed as in the source. -/
def ruMessages (key : String) : String :=
  if key = "timeout" then
    "⌛ Источник долго отвечает. Попробуйте повторить запрос чуть позже."
  else if key = "429" then
    "⏳ Высокая нагрузка на модель. Повторите запрос через минуту."
  else if key = "401" then
    "🔑 Проблема с ключом OpenAI. Сообщите поддержке."
  else if key = "402" then
    "💳 Исчерпан лимит оплаты OpenAI. Сообщите поддержке."
  else if key = "5xx" then
    "☁️ Поставщик временно недоступен. Повторите запрос позже."
  else
    "Извини, не получилось получить ответ. Попробуй ещё раз."

/-- The Uzbek message table of `_friendly_error_text`
(src/main.py:561-568). -/
def uzMessages (key : String) : String :=
  if key = "timeout" then
    "⌛ Manba javob bermayapti. Birozdan so‘ng qayta urinib ko‘ring."
  else if key = "429" then
    "⏳ Modelga yuklama yuqori. Bir daqiqadan so‘ng urinib ko‘ring."
  else if key = "401" then
    "🔑 OpenAI kaliti muammosi. Texnik yordamga yozing."
  else if key = "402" then
    "💳 OpenAI to‘lovi limiti tugagan. Texnik yordamga yozing."
  else if key = "5xx" then
    "☁️ Xizmat vaqtincha ishlamayapti. Keyinroq urinib ko‘ring."
  else
    "Kechirasiz, hozir javob bera olmadim. Yana urinib ko‘ring."

/-- `_friendly_error_text(e, lang)` (src/main.py:552-578).  Statuses 429,
401, 402 and 500-599 get their dedicated messages; any other
`HTTPStatusError` falls through to the `isinstance(e, (HTTPError,
TimeoutError))` check — which it satisfies, `HTTPStatusError` being an
`HTTPError` — and gets the timeout message, as do all transport errors and
asyncio timeouts; everything else gets the generic message. -/
def _friendly_error_text (e : PyErr) (lang : String) : String :=
  let M := fun key => if lang = "uz" then uzMessages key else ruMessages key
  match e with
  | .httpStatus code =>
      if code = 429 then M "429"
      else if code = 401 then M "401"
      else if code = 402 then M "402"
      else if 500 ≤ code && code ≤ 599 then M "5xx"
      else M "timeout"
  | .connectError => M "timeout"
  | .readTimeout => M "timeout"
  | .asyncioTimeout => M "timeout"
  | .other => M "generic"

/-- The six user-safe messages of the given language, one per failure
class: timeout, rate-limited (429), auth (401), billing (402),
upstream-unavailable (5xx), generic. -/
def friendlyMessages (lang : String) : List String :=
  let M := fun key => if lang = "uz" then uzMessages key else ruMessages key
  [M "timeout", M "429", M "401", M "402", M "5xx", M "generic"]

/-- Helper: whatever the failure, `_friendly_error_text` produces one of
the six class messages of the requested language. -/
theorem friendly_error_text_in_messages (e : PyErr) (lang : String) :
    _friendly_error_text e lang ∈ friendlyMessages lang := by
  cases e with
  | httpStatus code =>
      unfold _friendly_error_text friendlyMessages
      by_cases h1 : code = 429
      · simp [h1]
      · by_cases h2 : code = 401
        · simp [h1, h2]
        · by_cases h3 : code = 402
          · simp [h1, h2, h3]
          · by_cases h4 : (500 ≤ code && code ≤ 599) = true
            · simp [h1, h2, h3, h4]
            · simp [h1, h2, h3, h4]
  | connectError => simp [_friendly_error_text, friendlyMessages]
  | readTimeout => simp [_friendly_error_text, friendlyMessages]
  | asyncioTimeout => simp [_friendly_error_text, friendlyMessages]
  | other => simp [_friendly_error_text, friendlyMessages]

/-- `ask_gpt(user_text, topic_hint, user_id, system_prompt, allow_links)`
(src/main.py:632-661), as a function of the outcomes of its effects.
`apiKeySet` models `OPENAI_API_KEY` being set (when not, the function
echoes the question before any call); `callResult` is the outcome of the
semaphore-guarded `_retry(...)` + `raise_for_status()` + JSON parse of the
completion call; `hasCutoff` models the `re.search(r"\bknowledge\s+cutoff\b",
raw, re.I)` test, `tavilySet` models `TAVILY_API_KEY`, and `liveFallback`
the outcome of the `answer_with_live_search` fallback (its failure is
swallowed by `except Exception: pass`); `clean` models the pure
post-processing `strip_links_and_cleanup(_sanitize_cutoff(raw))`.  Every
exception path of the body is caught by `except Exception` and converted
to `_friendly_error_text`, so the model is a total function into `String`:
`ask_gpt` never raises. -/
def ask_gpt (clean : String → String) (hasCutoff : String → Bool)
    (apiKeySet tavilySet : Bool) (lang userText : String)
    (callResult : Except PyErr String) (liveFallback : Except PyErr String) :
    String :=
  if !apiKeySet then "Вы спросили: " ++ userText
  else
    match callResult with
    | .error e => _friendly_error_text e lang
    | .ok raw =>
        if hasCutoff raw && tavilySet then
          match liveFallback with
          | .ok t => t
          | .error _ => clean raw
        else clean raw

/-- C5: with an API key configured, whenever the completion interaction
fails — retries exhausted or a non-retryable error, of any class —
`ask_gpt` returns (never raises) the `_friendly_error_text` of that
failure in the user's language, and that text is one of the six localized
user-safe class messages: timeout, 429, 401, 402, 5xx, generic. -/
theorem ask_gpt_failure_friendly (clean : String → String)
    (hasCutoff : String → Bool) (tavilySet : Bool) (lang userText : String)
    (e : PyErr) (liveFallback : Except PyErr String) :
    ask_gpt clean hasCutoff true tavilySet lang userText (.error e) liveFallback =
      _friendly_error_text e lang
    ∧ _friendly_error_text e lang ∈ friendlyMessages lang :=
  ⟨rfl, friendly_error_text_in_messages e lang⟩

/-- One Tavily search result, at the fields `answer_legal` reads
(src/main.py:747-758): title, content, url. -/
structure TavilyResult where
  title : String
  content : String
  url : String
deriving DecidableEq, Repr

/-- `_format_lex_results(data, limit)` (src/main.py:747-758): of the first
`limit` results, keep those whose url contains "lex.uz", stripping title
and snippet (Python `str.strip` modelled by `String.trim`). -/
def _format_lex_results (results : List TavilyResult) (limit : Nat) :
    List TavilyResult :=
  ((results.take limit).filter (fun it => strContains it.url "lex.uz")).map
    (fun it => ⟨it.title.trim, it.content.trim, it.url⟩)

/-- The lowercase alternatives of the article-reference pattern
`(стат(ья|и)|modda|модда|пункт|band)` of `_legal_answer_has_citations`
(src/main.py:764). -/
def articleKeywordChars : List (List Char) :=
  ["статья".data, "стати".data, "modda".data, "модда".data,
   "пункт".data, "band".data]

/-- After the article keyword, the pattern requires `\s*\d+`: optional
whitespace then a digit. -/
def digitAfterWs : List Char → Bool
  | [] => false
  | c :: cs => if isWsChar c then digitAfterWs cs else c.isDigit

/-- Scan every position for an article-keyword match followed by
`\s*\d+` (the input is already lowercased, modelling `re.IGNORECASE`). -/
def artScanGo : List Char → Bool
  | [] => false
  | c :: rest =>
      articleKeywordChars.any
        (fun kw => startsWithChars (c :: rest) kw
          && digitAfterWs ((c :: rest).drop kw.length))
      || artScanGo rest

/-- `_legal_answer_has_citations(ans)` (src/main.py:760-765): non-empty,
contains a lex.uz link, and contains an article/clause reference. -/
def _legal_answer_has_citations (ans : String) : Bool :=
  if ans = "" then false
  else strContains ans "lex.uz" && artScanGo (pyLower ans).data

/-- Python `str.rstrip()` (trailing whitespace removed). -/
def rstripStr (s : String) : String :=
  ⟨(s.data.reverse.dropWhile isWsChar).reverse⟩

/-- The fixed "no authoritative source found" reply of `answer_legal`
when the lex.uz search yields nothing (src/main.py:772-775). -/
def legalNoSourceText (date : String) : String :=
  "Не нашёл подтверждённой нормы на lex.uz по вашему вопросу. " ++
  "Уточните формулировку (закон/сфера) или обратитесь к юристу.\n\n" ++
  "_Проверено: " ++ date ++ "_"

/-- The refusal reply of `answer_legal` when the model's answer still
lacks citations (src/main.py:828-831). -/
def legalNoNormText (date : String) : String :=
  "Не нашёл подтверждённой нормы на lex.uz по вашему вопросу. " ++
  "Уточните формулировку (название закона/кодекса, предмет регулирования) " ++
  "или обратитесь к юристу.\n\n" ++
  "_Проверено: " ++ date ++ "_"

/-- The fallback "Источники" markdown block built from the found sources
(src/main.py:834-837). -/
def legalSourcesBlock (sources : List TavilyResult) : String :=
  String.intercalate "\n"
    ((sources.filter (fun s => s.url ≠ "")).map
      (fun s => "- [" ++ s.title ++ "](" ++ s.url ++ ")"))

/-- The tail of `answer_legal` after an answer `ans` was obtained with
`calls` completion invocations (src/main.py:827-843): refuse when
citations are still missing or the model said the norm was not found,
otherwise append the sources block and the checked-date line when absent. -/
def legalFinish (sources : List TavilyResult) (date ans : String)
    (calls : Nat) : String × Nat :=
  if _legal_answer_has_citations ans = false
      || strContains ans "Норма не найдена" then
    (legalNoNormText date, calls)
  else
    let ans1 :=
      if !strContains ans "Источники" && !strContains ans "Manbalar" then
        let srcMd := legalSourcesBlock sources
        if srcMd ≠ "" then rstripStr ans ++ "\n\n**Источники:**\n" ++ srcMd
        else ans
      else ans
    let ans2 :=
      if !strContains ans1 "_Проверено:" && !strContains ans1 "Tekshirildi:" then
        rstripStr ans1 ++ "\n\n_Проверено: " ++ date ++ "_"
      else ans1
    (ans2, calls)

/-- `answer_legal(user_text, user_id)` (src/main.py:767-848), as a
function of the outcomes of its effects: `data` is the parsed result list
of `legal_search_lex` (`none` models both a failed search and a missing
Tavily key); `c1`/`c2` are the outcomes of the first and the strict second
`_call_openai` invocation; `date` models `_tz_tashkent_date()`; `clean`
models `strip_links_and_cleanup(_sanitize_cutoff(raw), allow_links=True)`.
Returns the reply text together with the number of Completion Client
invocations performed. -/
def answer_legal (clean : String → String) (data : Option (List TavilyResult))
    (c1 c2 : Except PyErr String) (date lang : String) : String × Nat :=
  let sources :=
    match data with
    | none => []
    | some rs => _format_lex_results rs 5
  if sources.isEmpty then (legalNoSourceText date, 0)
  else
    match c1 with
    | .error e => (_friendly_error_text e lang, 1)
    | .ok raw =>
        let ans := clean raw
        if _legal_answer_has_citations ans = false then
          match c2 with
          | .error e => (_friendly_error_text e lang, 2)
          | .ok raw2 => legalFinish sources date (clean raw2) 2
        else legalFinish sources date ans 1

/-- C6: when the domain-allowlisted search yields no result whose URL
contains "lex.uz" (in particular when the search itself failed), the legal
composer returns the fixed "no authoritative source found" reply and the
Completion Client is invoked zero times. -/
theorem legal_no_source_short_circuit (clean : String → String)
    (data : Option (List TavilyResult)) (c1 c2 : Except PyErr String)
    (date lang : String)
    (h : ∀ rs, data = some rs → ∀ r ∈ rs, strContains r.url "lex.uz" = false) :
    answer_legal clean data c1 c2 date lang = (legalNoSourceText date, 0) := by
  unfold answer_legal
  cases data with
  | none => rfl
  | some rs =>
      have hfmt : _format_lex_results rs 5 = [] := by
        unfold _format_lex_results
        have hfil : (rs.take 5).filter (fun it => strContains it.url "lex.uz") = [] := by
          rw [List.filter_eq_nil_iff]
          intro a ha
          have := h rs rfl a (List.take_subset 5 rs ha)
          simp [this]
        rw [hfil]
        rfl
      simp only [hfmt, List.isEmpty_nil, if_true]

/-- Witness for C6: a search that returned one non-lex.uz result leads to
the fixed reply with zero completion calls, whatever the stubbed
completion outcomes. -/
theorem legal_no_source_short_circuit_witness :
    answer_legal id (some [⟨"Some law", "text", "https://example.com/law"⟩])
      (.ok "draft one") (.ok "draft two") "01.01.2025" "ru" =
      (legalNoSourceText "01.01.2025", 0) :=
  legal_no_source_short_circuit id _ _ _ _ _
    (by
      intro rs hrs r hr
      injection hrs with hrs
      subst hrs
      simp only [List.mem_singleton] at hr
      subst hr
      decide)

/-- The verification stage of `_process_task` (src/main.py:1414-1461), as
a function of the outcomes of its effects.  `draft` is the string the
draft stage produced (that stage's own try/except already converts
timeouts and exceptions to friendly text, so it always yields a string);
`verifyDynamicEnabled` models `VERIFY_DYNAMIC`, `tavilySet` models
`TAVILY_API_KEY`; `verifyOutcome` is the outcome of
`asyncio.wait_for(verify_with_live_sources(...), VERIFY_TIMEOUT_SEC)` —
any failure there (timeout, exception, even the `NameError` from
`verify_with_live_sources` being undefined in the source) is caught by
`except Exception: pass`.  The returned string is the message the worker
then unconditionally attempts to deliver via `bot.send_message`. -/
def _process_task (verifyDynamicEnabled tavilySet : Bool) (yNow : Int)
    (text draft : String) (verifyOutcome : Except PyErr String) : String :=
  if verifyDynamicEnabled && _looks_dynamic yNow [text, draft] && tavilySet then
    match verifyOutcome with
    | .ok v => v
    | .error _ => draft
  else draft

/-- C7: when the verification pass is triggered (`VERIFY_DYNAMIC` on,
`looksDynamic` true, search configured) and the verification call fails
for any reason, the delivered answer is the draft unchanged; the failure
is swallowed and a message is still produced for delivery (the model is a
total function whose result is what the worker sends). -/
theorem verify_failure_keeps_draft (yNow : Int) (text draft : String)
    (e : PyErr) (hd : _looks_dynamic yNow [text, draft] = true) :
    _process_task true true yNow text draft (.error e) = draft := by
  unfold _process_task
  rw [hd]
  rfl

/-- Witness for C7: the question "курс доллара" makes `looksDynamic` true
(keyword "курс"); a verification timeout leaves the draft untouched. -/
theorem verify_failure_keeps_draft_witness :
    _looks_dynamic 2025 ["курс доллара", "неизвестно"] = true
    ∧ _process_task true true 2025 "курс доллара" "неизвестно"
        (.error PyErr.asyncioTimeout) = "неизвестно" :=
  ⟨by decide,
   verify_failure_keeps_draft 2025 "курс доллара" "неизвестно"
     PyErr.asyncioTimeout (by decide)⟩

/-- `SavolTask` (src/main.py:1403-1410). -/
structure SavolTask where
  chat_id : Int
  uid : Nat
  text : String
  lang : String
  topic_hint : Option String
  use_live : Bool
deriving DecidableEq, Repr

/-- Update the `HISTORY` dict at one user id. -/
def setHist (m : List (Nat × List HistEntry)) (uid : Nat)
    (l : List HistEntry) : List (Nat × List HistEntry) :=
  (uid, l) :: m.filter (fun p => p.1 ≠ uid)

/-- Read the `HISTORY` dict at one user id (`HISTORY.setdefault(uid, [])`). -/
def getHist (m : List (Nat × List HistEntry)) (uid : Nat) : List HistEntry :=
  match m.find? (fun p => p.1 = uid) with
  | some p => p.2
  | none => []

/-- The module-level mutable state the queue worker writes while
completing a job: the conversation-history dict `HISTORY`
(src/main.py:193).  No other module-level binding is assigned anywhere in
`_queue_worker`/`_process_task` (src/main.py:1414-1472); in particular the
source declares no service-time accumulator. -/
structure BotState where
  history : List (Nat × List HistEntry)
deriving DecidableEq, Repr

/-- One completed pass of the worker loop `_queue_worker`
(src/main.py:1463-1472) over a dequeued task: run `_process_task`, append
the final text to the user's history, deliver it.  `elapsed` is the job's
wall-clock duration in seconds — an ambient quantity the source never
reads or stores; it is an explicit input here precisely so that theorems
can state whether anything in the post-completion state depends on it.
Returns the state after the job and the delivered message. -/
def workerStep (elapsed : ℚ) (verifyDynamicEnabled tavilySet : Bool)
    (yNow : Int) (t : SavolTask) (draft : String)
    (verifyOutcome : Except PyErr String) (nowIso : String)
    (st : BotState) : BotState × String :=
  let final := _process_task verifyDynamicEnabled tavilySet yNow t.text draft
    verifyOutcome
  (⟨setHist st.history t.uid
      (append_history (getHist st.history t.uid) ⟨"assistant", final, nowIso⟩)⟩,
   final)

/-- `_eta_seconds(queue_size)` (src/main.py:102-106), with the
env-configured `WORKER_CONCURRENCY` as an explicit parameter: a fixed
6-seconds-per-item helper, `max(3, int(6 * queue_size / workers))`. -/
def _eta_seconds (worker_concurrency queue_size : Nat) : Nat :=
  let per_item := 6
  let workers := max 1 worker_concurrency
  max 3 (per_item * queue_size / workers)

/-- Counterexample to C2: completing the same job in 1 second and in 1000
seconds leaves the program in the identical state and delivers the
identical message — no elapsed-time observation is recorded anywhere, so
no process-wide `ServiceTimeEstimate` is seeded or blended by job
completions, contrary to the claim. -/
theorem service_time_estimate_cex :
    workerStep 1 true true 2025 ⟨1, 7, "hi", "ru", none, false⟩ "ok"
        (.ok "verified") "ts" ⟨[]⟩ =
      workerStep 1000 true true 2025 ⟨1, 7, "hi", "ru", none, false⟩ "ok"
        (.ok "verified") "ts" ⟨[]⟩
    ∧ (1 : ℚ) ≠ 1000 :=
  ⟨rfl, by norm_num⟩

/-- C2 as amended: the worker records no elapsed-time observation — the
post-completion state and delivered message are independent of the job's
duration — and the ETA shown in queue-position notices is computed by
`_eta_seconds` from the queue size and worker count alone, as
`max(3, int(6 * queue_size / workers))` with a fixed 6-second per-item
constant (no exponential moving average exists in the source). -/
theorem service_time_estimate_amended :
    (∀ (e₁ e₂ : ℚ) (vd tv : Bool) (yNow : Int) (t : SavolTask)
        (draft : String) (vo : Except PyErr String) (nowIso : String)
        (st : BotState),
        workerStep e₁ vd tv yNow t draft vo nowIso st =
          workerStep e₂ vd tv yNow t draft vo nowIso st)
    ∧ (∀ w q : Nat, _eta_seconds w q = max 3 (6 * q / max 1 w)) :=
  ⟨fun _ _ _ _ _ _ _ _ _ _ => rfl, fun _ _ => rfl⟩
